import Mathlib

/-!
# Verification of the UPI fraud-detection service

A shallow embedding, in Lean 4, of the decision logic of the
`upi-fraud-detection` repository, together with theorems settling the
frozen specification claims.  Python dictionaries holding validator
results become Lean structures, floats become rationals, mutable
in-process stores become explicit state passing over association lists,
and the outputs of opaque machine-learning artifacts (the Stage 1
ensemble, the Stage 2 behavioural scanner) become oracle parameters of
the embedded functions.  Strings are processed through their character
lists; Python `str.lower` is embedded as ASCII case folding, which is
exact on every string the theorems touch.
-/

set_option autoImplicit false

namespace UpiFraud

/-! ## Generic string helpers (character-list level) -/

/-- ASCII case folding of a character list, embedding Python `str.lower`
on ASCII input. -/
def listLower (cs : List Char) : List Char := cs.map Char.toLower

/-- `pat` occurs at the head of `cs` (embedding of anchored matching and
of Python `str.startswith`). -/
def listStarts (pat cs : List Char) : Bool :=
  match pat, cs with
  | [], _ => true
  | _ :: _, [] => false
  | p :: ps, c :: rest => p == c && listStarts ps rest

/-- `pat` occurs at the end of `cs` (embedding of Python `str.endswith`). -/
def listEnds (pat cs : List Char) : Bool :=
  listStarts pat.reverse cs.reverse

/-- `pat` occurs somewhere in `cs` (embedding of Python `in` on strings). -/
def listHasSub (pat cs : List Char) : Bool :=
  match cs with
  | [] => pat.isEmpty
  | _ :: rest => listStarts pat cs || listHasSub pat rest

/-- Python `str.rstrip(chars)`: drop from the right every trailing
character belonging to `chars`. -/
def listRStrip (chars cs : List Char) : List Char :=
  (cs.reverse.dropWhile (fun c => chars.contains c)).reverse

/-- The segment of `cs` strictly before the first `'@'`
(Python `s.split('@')[0]`; the whole string when no `'@'` occurs). -/
def beforeAt (cs : List Char) : List Char := cs.takeWhile (fun c => c != '@')

/-- The segment of `cs` strictly after the last `'@'`
(Python `s.split('@')[-1]`; the whole string when no `'@'` occurs). -/
def afterLastAt (cs : List Char) : List Char :=
  (cs.reverse.takeWhile (fun c => c != '@')).reverse

/-! ## Stage 2 fallback risk engine — `stage2_dynamic/fallback_engine.py`

`fallback_risk` is a pure function of its six arguments; floats become
rationals and the Python `int | None` WHOIS age becomes `Option ℤ`. -/

structure FallbackRes where
  level : String
  score : ℚ
  action : String
  reasons : List String
  deriving Repr, DecidableEq

/-- Embedding of `fallback_risk` (`fallback_engine.py`, lines 84–118).
`hard_rule_hits` is a Python `int`, embedded as `ℤ` with Python
truthiness `≠ 0`. -/
def fallback_risk (static_score : ℚ) (hard_rule_hits : ℤ) (tls_ok : Bool)
    (upi_in_url : Bool) (whois_age_days : Option ℤ) (in_blacklist : Bool) :
    FallbackRes :=
  let reasons0 : List String :=
    if hard_rule_hits ≠ 0 then ["hard_rules:" ++ toString hard_rule_hits] else []
  let risk0 : ℚ :=
    static_score * 100 +
      (if hard_rule_hits ≠ 0 then 20 * min hard_rule_hits 3 else 0)
  if in_blacklist then
    { level := "HIGH", score := 100, action := "BLOCK",
      reasons := reasons0 ++ ["in_blacklist"] }
  else
    let risk1 := risk0 + (if !tls_ok then 25 else 0)
    let reasons1 := reasons0 ++ (if !tls_ok then ["tls_bad"] else [])
    let risk2 := risk1 + (if upi_in_url then 30 else 0)
    let reasons2 := reasons1 ++ (if upi_in_url then ["upi_in_url"] else [])
    let whoisAdd : ℚ × List String :=
      match whois_age_days with
      | none => (0, [])
      | some d =>
        if d < 7 then (30, ["whois<7d"])
        else if d < 30 then (15, ["whois<30d"])
        else if d < 180 then (5, ["whois<180d"])
        else (0, [])
    let risk3 := risk2 + whoisAdd.1
    let reasons3 := reasons2 ++ whoisAdd.2
    let score := max 0 (min 100 risk3)
    if score ≥ 70 then
      { level := "HIGH", score := score, action := "BLOCK", reasons := reasons3 }
    else if score ≥ 40 then
      { level := "MEDIUM", score := score, action := "CHALLENGE", reasons := reasons3 }
    else
      { level := "LOW", score := score, action := "ALLOW_WITH_LOG", reasons := reasons3 }

/-! ## VPA reputation store — `vpa_validation/vpa_reputation.py`

The module-level dictionary `VPA_REPUTATION` becomes an explicit
association-list state threaded through the two operations. -/

structure Rep where
  reports : ℕ
  trust : ℚ
  deriving Repr, DecidableEq

/-- The in-memory reputation store: lower-cased VPA → record. -/
abbrev RepStore := List (String × Rep)

/-- Dictionary assignment `store[key] = v`: overwrite the entry if the key
is present, otherwise add it (dictionary keys are unique, so deleting
every entry with the key before consing models overwriting). -/
def repSet (store : RepStore) (key : String) (v : Rep) : RepStore :=
  (key, v) :: store.filter (fun e => !(e.1 == key))

/-- Embedding of `get_reputation` (`vpa_reputation.py`, lines 13–15).
`dict.get` with a default does not mutate the dictionary, so the store
comes back unchanged as the second component. -/
def get_reputation (store : RepStore) (vpa : String) : Rep × RepStore :=
  let key : String := ⟨listLower vpa.data⟩
  ((store.lookup key).getD { reports := 0, trust := 1/2 }, store)

/-- Embedding of `update_reputation` (`vpa_reputation.py`, lines 17–26):
insert the default record when the key is absent, then either record a
scam report (`reports + 1`, `trust × 0.75`) or a clean observation
(`trust + 0.05`, capped at `1.0`). -/
def update_reputation (store : RepStore) (vpa : String) (is_scam : Bool) :
    RepStore :=
  let key : String := ⟨listLower vpa.data⟩
  let cur : Rep := (store.lookup key).getD { reports := 0, trust := 1/2 }
  if is_scam then
    repSet store key { reports := cur.reports + 1, trust := cur.trust * (3/4) }
  else
    repSet store key { reports := cur.reports, trust := min 1 (cur.trust + 1/20) }

/-! ## QR-package VPA format validator — `qr_validation/vpa_validator.py` -/

/-- Character class `[a-zA-Z0-9.\-_]` of the VPA regex. -/
def isVpaChar (c : Char) : Bool :=
  (('a' ≤ c && c ≤ 'z') || ('A' ≤ c && c ≤ 'Z') || ('0' ≤ c && c ≤ '9')
    || c == '.' || c == '-' || c == '_')

/-- Anchored match of `^[a-zA-Z0-9.\-_]{2,256}@[a-zA-Z0-9.\-_]{2,128}$`
(`vpa_validator.py`, line 144).  Because `'@'` is outside the character
class, a match is exactly a decomposition `local ++ '@' ++ provider` with
both parts in the class and within the length bounds. -/
def vpaRegex (cs : List Char) : Bool :=
  let loc := cs.takeWhile (fun c => c != '@')
  match cs.drop loc.length with
  | '@' :: prov =>
    loc.all isVpaChar && 2 ≤ loc.length && loc.length ≤ 256 &&
    prov.all isVpaChar && 2 ≤ prov.length && prov.length ≤ 128
  | _ => false

/-- The `KNOWN_PROVIDERS` table (`vpa_validator.py`, lines 43–129), in
source order: provider code → institution name. -/
def KNOWN_PROVIDERS : List (String × String) :=
  [("oksbi", "State Bank of India"),
   ("sbi", "State Bank of India"),
   ("okhdfcbank", "HDFC Bank"),
   ("hdfcbank", "HDFC Bank"),
   ("okaxis", "Axis Bank"),
   ("axisbank", "Axis Bank"),
   ("okicici", "ICICI Bank"),
   ("icici", "ICICI Bank"),
   ("federal", "Federal Bank"),
   ("pnb", "Punjab National Bank"),
   ("boi", "Bank of India"),
   ("citi", "Citibank"),
   ("sc", "Standard Chartered"),
   ("rbl", "RBL Bank"),
   ("kotak", "Kotak Mahindra Bank"),
   ("indusind", "IndusInd Bank"),
   ("yesbank", "Yes Bank"),
   ("idbi", "IDBI Bank"),
   ("unionbank", "Union Bank"),
   ("canara", "Canara Bank"),
   ("bob", "Bank of Baroda"),
   ("paytm", "Paytm"),
   ("paytmqr", "Paytm QR"),
   ("pthdfc", "Paytm (HDFC)"),
   ("ptaxis", "Paytm (Axis)"),
   ("ptsbi", "Paytm (SBI)"),
   ("ybl", "PhonePe"),
   ("phonepe", "PhonePe"),
   ("apl", "Amazon Pay"),
   ("amazonpay", "Amazon Pay"),
   ("ibl", "BHIM (Axis)"),
   ("bim", "BHIM"),
   ("gpay", "Google Pay"),
   ("googlepay", "Google Pay"),
   ("okgpay", "Google Pay"),
   ("fbl", "Freecharge"),
   ("freecharge", "Freecharge"),
   ("mobikwik", "MobiKwik"),
   ("ola", "Ola Money"),
   ("jio", "Jio Money"),
   ("airtel", "Airtel Payments Bank"),
   ("airtelbank", "Airtel Payments Bank"),
   ("postbank", "India Post Payments Bank"),
   ("payzapp", "PayZapp (HDFC)"),
   ("pockets", "Pockets (ICICI)"),
   ("imobile", "iMobile (ICICI)"),
   ("razorpay", "Razorpay"),
   ("instamojo", "Instamojo"),
   ("cashfree", "Cashfree"),
   ("ccavenue", "CCAvenue"),
   ("billdesk", "BillDesk"),
   ("bharatpe", "BharatPe"),
   ("phonepeqr", "PhonePe QR"),
   ("superyes", "SuperMoney"),
   ("supermoney", "SuperMoney"),
   ("saraswat", "Saraswat Bank"),
   ("kvb", "Karur Vysya Bank"),
   ("dcb", "DCB Bank"),
   ("tamilnadmercantile", "Tamilnad Mercantile Bank"),
   ("jkb", "Jammu & Kashmir Bank"),
   ("iob", "Indian Overseas Bank"),
   ("indianbank", "Indian Bank"),
   ("corpbank", "Corporation Bank"),
   ("equitas", "Equitas Small Finance Bank"),
   ("ujjivan", "Ujjivan Small Finance Bank"),
   ("au", "AU Small Finance Bank"),
   ("fino", "Fino Payments Bank"),
   ("janabank", "Jana Small Finance Bank"),
   ("sbicard", "SBI Card"),
   ("axiscard", "Axis Bank Credit Card"),
   ("hdfccard", "HDFC Credit Card"),
   ("icicicard", "ICICI Credit Card")]

structure VpaFormatRes where
  verdict : String
  risk_score : ℚ
  reasons : List String
  /-- `provider` field: the institution name when recognized, the raw
  provider code when unrecognized, absent (`None`) on format failure. -/
  provider : Option String
  deriving Repr, DecidableEq

/-- Embedding of `validate_vpa_format` (`vpa_validator.py`, lines 131–178). -/
def validate_vpa_format (vpa : String) : VpaFormatRes :=
  if !vpaRegex vpa.data then
    { verdict := "BLOCK", risk_score := 9/10,
      reasons := ["❌ Invalid VPA format"], provider := none }
  else
    let provider : String := ⟨listLower (afterLastAt vpa.data)⟩
    match KNOWN_PROVIDERS.lookup provider with
    | some name =>
      { verdict := "OK", risk_score := 1/10,
        reasons := ["✓ Valid VPA format", "✓ Verified provider: " ++ name],
        provider := some name }
    | none =>
      { verdict := "WARN", risk_score := 1/2,
        reasons := ["✓ Valid VPA format",
                    "⚠️ Unrecognized payment provider: " ++ provider,
                    "This might be a new or regional provider",
                    "⚠️ Verify merchant authenticity before paying"],
        provider := some provider }

/-! ## VPA rule engine — `vpa_validation/vpa_rules.py` and `vpa_utils.py`

`vpa_rules.py` imports `is_valid_format`, `get_provider` and `entropy`
from `vpa_validation.vpa_utils`, but the `vpa_utils.py` in the
repository defines none of these three names (its related functions are
`parse_vpa`, `looks_like_vpa` and `vpa_entropy`).  The three helpers are
therefore modelled from the specification (§4.5: format parsing via the
localpart/provider regex, case-folded provider; glossary: Shannon
entropy over the character distribution, measured in bits per §4.6's
"3.7 bits" threshold). -/

/-- Python whitespace class `\s` on ASCII. -/
def isPyWs (c : Char) : Bool :=
  c == ' ' || c == '\t' || c == '\n' || c == '\r' ||
  c == Char.ofNat 11 || c == Char.ofNat 12

/-- Character class `[a-zA-Z0-9]` (provider part of `vpa_utils.VPA_RE`). -/
def isAlnumChar (c : Char) : Bool :=
  ('a' ≤ c && c ≤ 'z') || ('A' ≤ c && c ≤ 'Z') || ('0' ≤ c && c ≤ '9')

/-- Python `str.strip()`: drop leading and trailing whitespace. -/
def listStrip (cs : List Char) : List Char :=
  ((cs.dropWhile isPyWs).reverse.dropWhile isPyWs).reverse

/-- Anchored match of `vpa_utils.VPA_RE`, the regex
`^\s*([a-zA-Z0-9.\-_]{2,64})@([a-zA-Z0-9]{2,64})\s*$`: after stripping
surrounding whitespace, a local part of 2–64 class characters, `'@'`,
and a 2–64 character alphanumeric provider.  Returns the captured
`(localpart, provider)` on success. -/
def vpaUtilsParse (cs : List Char) : Option (List Char × List Char) :=
  let t := listStrip cs
  let loc := t.takeWhile (fun c => c != '@')
  match t.drop loc.length with
  | '@' :: prov =>
    if loc.all isVpaChar && 2 ≤ loc.length && loc.length ≤ 64 &&
       prov.all isAlnumChar && 2 ≤ prov.length && prov.length ≤ 64 then
      some (loc, prov)
    else none
  | _ => none

/-- Modelled from the spec: `is_valid_format` is imported by
`vpa_rules.py` but absent from `vpa_utils.py`; per §4.5 it is the
localpart/provider regex check of the VPA utilities. -/
def is_valid_format (cs : List Char) : Bool :=
  (vpaUtilsParse cs).isSome

/-- Modelled from the spec: `get_provider` is imported by `vpa_rules.py`
but absent from `vpa_utils.py`; per §4.5 it extracts the case-folded
provider component of a VPA, and is undefined (`none`) when the format
does not parse. -/
def get_provider (cs : List Char) : Option (List Char) :=
  (vpaUtilsParse cs).map (fun lp => listLower lp.2)

/-- Modelled from the spec: `entropy` is imported by `vpa_rules.py` but
absent from `vpa_utils.py`; per the glossary it is the Shannon entropy
of the character distribution of a string, in bits (the unnormalized
`-∑ p·log2 p`, matching §4.6's "3.7 bits" threshold).  The entropy value
itself is irrational, so the embedding carries the exact decidable
comparison `entropy cs > n/d`, which for a string of length `L` with
character counts `k_c` unfolds as
`entropy > n/d ↔ d·∑ k_c·log2(L/k_c) > n·L ↔ L^(L·d) > 2^(n·L) · ∏ k_c^(k_c·d)`
(strict monotonicity of `log2` on positives). -/
def entropyGt (cs : List Char) (n d : ℕ) : Bool :=
  let L := cs.length
  L ^ (L * d) >
    2 ^ (n * L) * ((cs.dedup).map (fun c => (cs.count c) ^ (cs.count c * d))).prod

/-- `ALLOWED_PROVIDERS` (`vpa_rules.py`, lines 4–8), transcribed as the
source set literal (the duplicated `"oksbi"` is harmless for
membership); 11 distinct providers. -/
def ALLOWED_PROVIDERS : List String :=
  ["oksbi", "okhdfcbank", "okaxis", "okicici",
   "oksbi", "okyesbank", "okkotak", "okboi",
   "okupi", "okidfc", "ybl", "upi"]

/-- `provider in ALLOWED_PROVIDERS`, where `provider` is the (optional)
output of `get_provider`; Python `None` is a member of no set. -/
def providerAllowed (provider : Option (List Char)) : Bool :=
  match provider with
  | some p => ALLOWED_PROVIDERS.any (fun a => a.data == p)
  | none => false

/-- `SUSPICIOUS_AMOUNTS = {1, 2, 5, 10}` (`vpa_rules.py`, line 11);
`amount` is `float | None` and `None in {…}` is false. -/
def amountSuspicious (amount : Option ℚ) : Bool :=
  match amount with
  | some a => a == 1 || a == 2 || a == 5 || a == 10
  | none => false

/-- The two hard-failure messages of `apply_vpa_rules`, abstracted from
their message strings (the provider interpolation depends only on the
modelled `get_provider` value). -/
inductive HardFlag where
  | formatInvalid
  | providerNotAllowed
  deriving Repr, DecidableEq

/-- The three soft-flag messages of `apply_vpa_rules`, abstracted from
their message strings. -/
inductive SoftFlag where
  | highEntropy
  | scamAmount
  | shortHandle
  deriving Repr, DecidableEq

structure VpaRulesRes where
  vpa : String
  hard_fail : List HardFlag
  soft_flags : List SoftFlag
  deriving Repr, DecidableEq

/-- Embedding of `apply_vpa_rules` (`vpa_rules.py`, lines 13–40): the
input is lower-cased, then the two hard rules and the three soft rules
append their flags in source order.  Note the entropy rule is applied to
the entire lower-cased VPA string (`entropy(vpa)`), and the short-handle
rule to `vpa.split("@")[0]`. -/
def apply_vpa_rules (vpa : String) (amount : Option ℚ) : VpaRulesRes :=
  let v : List Char := listLower vpa.data
  let provider := get_provider v
  { vpa := ⟨v⟩,
    hard_fail :=
      (if !is_valid_format v then [HardFlag.formatInvalid] else []) ++
      (if !providerAllowed provider then [HardFlag.providerNotAllowed] else []),
    soft_flags :=
      (if entropyGt v 37 10 then [SoftFlag.highEntropy] else []) ++
      (if amountSuspicious amount then [SoftFlag.scamAmount] else []) ++
      (if (beforeAt v).length ≤ 3 then [SoftFlag.shortHandle] else []) }

/-! ## Link validator — `link_validation/validator.py` -/

/-- Scheme characters accepted by `urllib.parse` after the initial
letter: letters, digits, `+`, `-`, `.`. -/
def isSchemeChar (c : Char) : Bool :=
  isAlnumChar c || c == '+' || c == '-' || c == '.'

/-- The remainder of a URL after removing a valid `scheme:` head, as
`urllib.parse.urlsplit` does: the text before the first `':'` counts as
a scheme when it is nonempty, starts with a letter and consists of
scheme characters. -/
def splitScheme (cs : List Char) : List Char :=
  let head := cs.takeWhile (fun c => c != ':')
  match cs.drop head.length with
  | ':' :: rest =>
    if (match head with
        | c :: _ => (('a' ≤ c && c ≤ 'z') || ('A' ≤ c && c ≤ 'Z')) &&
                    head.all isSchemeChar
        | [] => false) then rest else cs
  | _ => cs

/-- `urllib.parse.urlparse(url).netloc`: when the post-scheme remainder
begins with `//`, the text up to the next `/`, `?` or `#`; empty
otherwise. -/
def urlNetloc (cs : List Char) : List Char :=
  let rest := splitScheme cs
  if listStarts ['/', '/'] rest then
    (rest.drop 2).takeWhile (fun c => c != '/' && c != '?' && c != '#')
  else []

/-- `TRUSTED_DOMAINS` (`validator.py`, lines 132–152). -/
def TRUSTED_DOMAINS : List String :=
  ["google.com", "gmail.com", "youtube.com", "facebook.com", "meta.com",
   "amazon.com", "amazonpay.in", "apple.com", "microsoft.com", "netflix.com",
   "twitter.com", "x.com", "instagram.com", "linkedin.com", "whatsapp.com",
   "wikipedia.org", "reddit.com", "github.com", "stackoverflow.com",
   "hdfcbank.com", "icicibank.com", "sbi.co.in", "onlinesbi.sbi",
   "axisbank.com", "kotakbank.com", "yesbank.in", "pnbindia.in",
   "bankofbaroda.in", "canarabank.com", "unionbankofindia.co.in",
   "paytm.com", "phonepe.com", "googlepay.com",
   "bhimupi.org.in", "npci.org.in", "upi.com",
   "gov.in", "nic.in", "uidai.gov.in", "epfindia.gov.in"]

/-- Python `str.replace('www.', '')`: delete every non-overlapping
occurrence of `www.`, scanning left to right. -/
def stripWWW : List Char → List Char
  | 'w' :: 'w' :: 'w' :: '.' :: rest => stripWWW rest
  | c :: rest => c :: stripWWW rest
  | [] => []

/-- Embedding of `is_trusted_domain` (`validator.py`, lines 128–168):
lower-case the netloc, delete every `'www.'` occurrence
(`str.replace` replaces all occurrences, not only a leading one), then
exact-match or dot-suffix-match against the trusted list. -/
def is_trusted_domain (url : String) : Bool :=
  let domain := stripWWW (listLower (urlNetloc url.data))
  TRUSTED_DOMAINS.any (fun t => domain == t.data) ||
  TRUSTED_DOMAINS.any (fun t => listEnds ('.' :: t.data) domain || domain == t.data)

/-- Patterns `.*X.*\.com$` of `PHISHING_PATTERNS`: the host contains `X`
and ends in `.com`.  (Exact for every `X` used, because the last
character of each such `X` is none of `.`, `c`, `o`, `m`, so an
occurrence of `X` can never overlap the terminal `.com`.) -/
def patMidCom (needle : String) (d : List Char) : Bool :=
  listHasSub needle.data d && listEnds ['.', 'c', 'o', 'm'] d

/-- Patterns `P.*\.com$` of `PHISHING_PATTERNS` (anchored head): the host
starts with `P`, ends in `.com`, and is long enough for the two to be
disjoint (the regex consumes `|P| + 4` characters at minimum). -/
def patHeadCom (pre : String) (d : List Char) : Bool :=
  listStarts pre.data d && listEnds ['.', 'c', 'o', 'm'] d &&
  pre.length + 4 ≤ d.length

/-- Pattern 17, `.*netbanking.*\.(?!hdfcbank\.com|icicibank\.com)`:
some occurrence of `netbanking` is followed, at or after its end, by a
`'.'` whose successor text starts with neither `hdfcbank.com` nor
`icicibank.com`. -/
def patNetbanking (d : List Char) : Bool :=
  (List.range d.length).any fun i =>
    listStarts "netbanking".data (d.drop i) &&
    ((List.range (d.length + 1)).any fun j =>
      i + 10 ≤ j && listStarts ['.'] (d.drop j) &&
      !listStarts "hdfcbank.com".data (d.drop (j + 1)) &&
      !listStarts "icicibank.com".data (d.drop (j + 1)))

/-- The disjunction of the 17 `PHISHING_PATTERNS` regexes
(`validator.py`, lines 73–91) over a (lower-cased) host. -/
def matchesPhishing (d : List Char) : Bool :=
  patMidCom "-verify" d || patMidCom "-kyc" d || patMidCom "-update" d ||
  patMidCom "-secure" d || patMidCom "-block" d || patMidCom "-suspended" d ||
  patMidCom "-reactivate" d || patMidCom "-confirm" d ||
  patHeadCom "upi-" d || listEnds "-upi.com".data d ||
  patHeadCom "sbi-" d || patHeadCom "hdfc-" d || patHeadCom "icici-" d ||
  patHeadCom "paytm-" d ||
  patMidCom "-bank" d || patMidCom "bank-" d ||
  patNetbanking d

/-- `DOMAIN_KEYWORDS` (`validator.py`, lines 94–98). -/
def DOMAIN_KEYWORDS : List String :=
  ["verify", "kyc", "update", "secure", "block", "suspended",
   "reactivate", "confirm", "urgent", "expire", "bank-login",
   "net-banking", "account-verify", "customer-care"]

/-- The four legitimate domains exempted from the keyword check
(`validator.py`, line 119). -/
def KEYWORD_EXEMPT : List String :=
  ["hdfcbank.com", "icicibank.com", "sbi.co.in", "onlinesbi.sbi"]

/-- Embedding of `check_domain_blacklist` (`validator.py`, lines
100–126), reduced to its `is_blacklisted` field: a phishing-pattern
match, or a high-risk keyword in the host of a non-exempt domain. -/
def check_domain_blacklist (url : String) : Bool :=
  let domain := listLower (urlNetloc url.data)
  matchesPhishing domain ||
  (DOMAIN_KEYWORDS.any (fun kw => listHasSub kw.data domain) &&
   !KEYWORD_EXEMPT.any (fun e => domain == e.data))

/-- The two numbers the Stage 1 model artifacts contribute to
`validate_url`: the gradient-boosted classifier's class-0 probability
and the (sigmoid-normalized) isolation-forest score, defaulting to 0.5
inside the source when the anomaly model is unavailable.  Both come out
of opaque serialized models, so they are oracle inputs here. -/
structure MLOut where
  xgb_prob : ℚ
  if_score : ℚ
  deriving Repr, DecidableEq

/-- Python `round(x, 2)` embedded exactly on rationals: scale by 100 and
round half to even. -/
def pyRound2 (q : ℚ) : ℚ :=
  let x := q * 100
  let n : ℤ := ⌊x⌋
  let frac := x - n
  let r : ℤ :=
    if frac > 1/2 then n + 1
    else if frac < 1/2 then n
    else if n % 2 = 0 then n else n + 1
  (r : ℚ) / 100

structure VUrlRes where
  verdict : String
  score : ℚ
  deriving Repr, DecidableEq

/-- Embedding of `validate_url` (`validator.py`, lines 170–289), reduced
to verdict and score: trusted-domain whitelist first (`OK`, 0.0), then
the blacklist (`BLOCK`, 1.0), then the ML ensemble — `none` for the
model-artifacts-unavailable fallback (`WARN`, 0.5), `some` for model
outputs, combined as `0.8·xgb + 0.2·if` with the 0.7/0.4 verdict
thresholds and the score rounded to 2 decimals. -/
def validate_url (url : String) (ml : Option MLOut) : VUrlRes :=
  if is_trusted_domain url then { verdict := "OK", score := 0 }
  else if check_domain_blacklist url then { verdict := "BLOCK", score := 1 }
  else
    match ml with
    | none => { verdict := "WARN", score := 1/2 }
    | some m =>
      let risk := m.xgb_prob * (8/10) + m.if_score * (2/10)
      { verdict :=
          if risk ≥ 7/10 then "BLOCK"
          else if risk ≥ 4/10 then "WARN"
          else "OK",
        score := pyRound2 risk }

/-- The trusted-host condition exactly as claim C3 words it (for
comparison with the source's `is_trusted_domain`): host lower-cased,
then a single *leading* `www.` stripped, then exact or dot-suffix match
against the trusted list. -/
def claimC3TrustedHost (url : String) : Bool :=
  let d0 := listLower (urlNetloc url.data)
  let d := if listStarts "www.".data d0 then d0.drop 4 else d0
  TRUSTED_DOMAINS.any (fun t => d == t.data || listEnds ('.' :: t.data) d)

/-! ## Orchestrator — `backend/orchestrator.py`

The link path (`validate_link`) is embedded as a function of the Stage 1
result (itself the output of `validate_url`) and of the outcome of the
Stage 2 attempt: `none` models both "Stage 2 not invoked" and "the
Stage 2 call raised" (the source sets `stage2_result = None` in its
handler), `some r` a returned Stage 2 dictionary, whose `success`,
`verdict` and `score` keys `validate_url_stage2` always populates. -/

structure Stage2Res where
  success : Bool
  verdict : String
  score : ℚ
  deriving Repr, DecidableEq

structure LinkRes where
  stage1 : VUrlRes
  stage2 : Option Stage2Res
  final_verdict : String
  risk_score : ℚ
  deriving Repr, DecidableEq

/-- Embedding of `validate_link` (`orchestrator.py`, lines 113–233),
reduced to the stage sub-results, final verdict and risk score.
Stage 2 is attempted only on a Stage 1 `WARN`/`BLOCK`; when it produced
a result that reports success, the final score is
`max(stage1_score, stage2_score)` and the final verdict the more severe
one; otherwise both equal Stage 1's. -/
def validate_link (s1 : VUrlRes) (stage2run : Option Stage2Res) : LinkRes :=
  let s2 : Option Stage2Res :=
    if s1.verdict == "WARN" || s1.verdict == "BLOCK" then stage2run else none
  match s2 with
  | some r =>
    if r.success then
      { stage1 := s1, stage2 := some r,
        final_verdict :=
          if s1.verdict == "BLOCK" || r.verdict == "BLOCK" then "BLOCK"
          else if s1.verdict == "WARN" || r.verdict == "WARN" then "WARN"
          else "OK",
        risk_score := max s1.score r.score }
    else
      { stage1 := s1, stage2 := some r,
        final_verdict := s1.verdict, risk_score := s1.score }
  | none =>
    { stage1 := s1, stage2 := none,
      final_verdict := s1.verdict, risk_score := s1.score }

structure QrUrlRes where
  verdict : String
  risk_score : ℚ
  deriving Repr, DecidableEq

/-- Embedding of the `url` branch of `validate_qr` (`orchestrator.py`,
lines 362–379), applied to the produced link result: the verdict is the
link path's final verdict, and the risk score is the Python expression
`(stage2.get("score") if stage2 else None) or stage1.get("score", 0)` —
`or` returns its left operand unless that operand is falsy (`None` or
`0.0`), in which case the Stage 1 score is used. -/
def validate_qr_url (l : LinkRes) : QrUrlRes :=
  { verdict := l.final_verdict,
    risk_score :=
      match l.stage2 with
      | some r => if r.score != 0 then r.score else l.stage1.score
      | none => l.stage1.score }

/-- `suspicious_keywords` of `validate_message` (`orchestrator.py`,
lines 285–290). -/
def SUSPICIOUS_KEYWORDS : List String :=
  ["kyc", "verify", "suspended", "blocked", "expire", "update",
   "urgent", "immediately", "click here", "limited time",
   "congratulations", "winner", "prize", "lottery", "cashback",
   "refund", "reward", "claim", "account", "bank"]

/-- Start-of-match test for the URL regex `https?://` (greedy `s?`). -/
def startsHttp (cs : List Char) : Bool :=
  listStarts "https://".data cs || listStarts "http://".data cs

/-- `re.findall(r'https?://[^\s]+', message)`: non-overlapping,
leftmost-first matches, each being `http://` or `https://` followed by a
maximal nonempty run of non-whitespace characters (the scheme characters
themselves are non-whitespace, so each match is exactly the maximal
non-whitespace run starting at the scheme, provided it extends past the
`//`). -/
def extractUrlsAux : ℕ → List Char → List (List Char)
  | 0, _ => []
  | _ + 1, [] => []
  | fuel + 1, c :: rest =>
    let tokTail := rest.takeWhile (fun ch => !isPyWs ch)
    let tok := c :: tokTail
    if startsHttp (c :: rest) then
      if (if listStarts "https://".data (c :: rest) then 8 else 7) < tok.length then
        tok :: extractUrlsAux fuel (rest.drop tokTail.length)
      else extractUrlsAux fuel rest
    else extractUrlsAux fuel rest

/-- The scan itself, with fuel initialized to the text length: every
step consumes at least one character, so the fuel never runs out and the
definition stays structurally recursive (kernel-computable). -/
def extractUrls (cs : List Char) : List (List Char) :=
  extractUrlsAux cs.length cs

/-- The trailing-punctuation set of `url.rstrip('.,;:)]\x7d')`. -/
def URL_STRIP_CHARS : List Char :=
  ['.', ',', ';', ':', ')', ']', Char.ofNat 125]

/-- Python `\w` on ASCII: letters, digits, underscore. -/
def isWordChar (c : Char) : Bool := isAlnumChar c || c == '_'

/-- Digit test for `\d` on ASCII. -/
def isDigitChar (c : Char) : Bool := '0' ≤ c && c ≤ '9'

/-- `re.findall(r'\b\d{10}\b', message)` is nonempty: a run of ten
digits bounded on both sides by a word boundary. -/
def hasPhone (cs : List Char) : Bool :=
  (List.range (cs.length + 1)).any fun i =>
    ((cs.drop i).take 10).length == 10 &&
    ((cs.drop i).take 10).all isDigitChar &&
    (i == 0 || !isWordChar (cs.getD (i - 1) ' ')) &&
    (i + 10 == cs.length || !isWordChar (cs.getD (i + 10) ' '))

/-- The per-URL risk contribution of the message loop: +0.5 for a
`BLOCK` Link-path verdict, +0.3 for `WARN`, nothing otherwise. -/
def urlContribution (v : String) : ℚ :=
  if v == "BLOCK" then 1/2 else if v == "WARN" then 3/10 else 0

structure MsgRes where
  verdict : String
  risk_score : ℚ
  extracted_urls : List (String × String)
  deriving Repr, DecidableEq

/-- Embedding of `validate_message` (`orchestrator.py`, lines 277–342),
reduced to verdict, risk score and the per-URL (url, verdict) pairs.
`linkVerdict` is the oracle for `validate_link(url).get("final_verdict",
"WARN")` on each extracted, punctuation-stripped URL. -/
def validate_message (message : String) (linkVerdict : String → String) :
    MsgRes :=
  let lower := listLower message.data
  let found := SUSPICIOUS_KEYWORDS.filter (fun kw => listHasSub kw.data lower)
  let kwRisk : ℚ := if found.isEmpty then 0 else (15/100) * found.length
  let urls : List String :=
    (extractUrls message.data).map (fun u => ⟨listRStrip URL_STRIP_CHARS u⟩)
  let urlRisk : ℚ := (urls.map (fun u => urlContribution (linkVerdict u))).sum
  let phoneRisk : ℚ := if hasPhone message.data then 1/10 else 0
  let risk := kwRisk + urlRisk + phoneRisk
  { verdict :=
      if risk ≥ 7/10 then "BLOCK" else if risk ≥ 3/10 then "WARN" else "OK",
    risk_score := min risk 1,
    extracted_urls := urls.map (fun u => (u, linkVerdict u)) }

/-! ### `validate_input` and the in-process cache

Result dictionaries are association lists over an abstract value type;
the dispatch on `input_type` (the body of the `try` block, lines 88–97)
is an oracle of type `Except String ResDict`: `.ok` the dictionary a
path handler returned (including the `error`-keyed ones the handlers
build themselves), `.error e` an exception with text `e` escaping the
handler.  Time is measured in hours for cache ages and passed explicitly
(the stamped `response_time_ms` is the measured elapsed value in
milliseconds). -/

inductive RVal where
  | str (s : String)
  | num (q : ℚ)
  | int (n : ℤ)
  | bool (b : Bool)
  deriving Repr, DecidableEq

abbrev ResDict := List (String × RVal)

/-- Python dict assignment `d[k] = v`: overwrite in place when the key
exists, else append (insertion order preserved). -/
def setKey (r : ResDict) (k : String) (v : RVal) : ResDict :=
  if r.any (fun e => e.1 == k) then
    r.map (fun e => if e.1 == k then (k, v) else e)
  else r ++ [(k, v)]

/-- Python `k in d`. -/
def hasKey (r : ResDict) (k : String) : Bool := r.any (fun e => e.1 == k)

/-- `_VALIDATION_CACHE`: cache key → (result, timestamp in hours). -/
abbrev Cache := List (String × (ResDict × ℚ))

/-- Embedding of `save_to_cache` (`orchestrator.py`, lines 60–65). -/
def save_to_cache (cache : Cache) (key : String) (result : ResDict)
    (now : ℚ) : Cache :=
  (key, (result, now)) :: cache.filter (fun e => !(e.1 == key))

/-- Embedding of `get_from_cache` (`orchestrator.py`, lines 49–58):
return the stored result while its age is under `_CACHE_EXPIRY_HOURS =
24`; delete the entry (second component is the updated cache) and miss
once expired. -/
def get_from_cache (cache : Cache) (now : ℚ) (key : String) :
    Option ResDict × Cache :=
  match cache.lookup key with
  | some (r, ts) =>
    if now - ts < 24 then (some r, cache)
    else (none, cache.filter (fun e => !(e.1 == key)))
  | none => (none, cache)

/-- Embedding of `validate_input` (`orchestrator.py`, lines 67–111):
cache hit (a truthy cached dictionary) short-circuits with
`cached = true` stamps; on a miss the dispatch outcome is either an
escaped exception `e`, returned as exactly the one-key dictionary
`{error: e}` with the cache untouched, or a handler result, stamped with
`cached = false` and `response_time_ms` and saved to the cache only when
it carries no `error` key. -/
def validate_input (cache : Cache) (now : ℚ) (key : String)
    (dispatch : Except String ResDict) (elapsedMs : ℤ) : ResDict × Cache :=
  let looked := get_from_cache cache now key
  let hit : Option ResDict :=
    match looked.1 with
    | some r => if r.isEmpty then none else some r
    | none => none
  match hit with
  | some r =>
    (setKey (setKey r "cached" (RVal.bool true)) "response_time_ms"
      (RVal.int elapsedMs), looked.2)
  | none =>
    match dispatch with
    | .error e => ([("error", RVal.str e)], looked.2)
    | .ok r0 =>
      let r1 := setKey (setKey r0 "cached" (RVal.bool false))
        "response_time_ms" (RVal.int elapsedMs)
      if hasKey r1 "error" then (r1, looked.2)
      else (r1, save_to_cache looked.2 key r1 now)

/-! ## Shared lemmas -/

/-- `takeWhile` passes over a prefix whose elements all satisfy the
predicate and stops at the first failing element. -/
theorem takeWhile_append_all {p : Char → Bool} (l : List Char) (c : Char)
    (r : List Char) (hl : ∀ x ∈ l, p x = true) (hc : p c = false) :
    (l ++ c :: r).takeWhile p = l := by
  induction l with
  | nil => simp [List.takeWhile, hc]
  | cons a t ih =>
    have ha : p a = true := hl a (by simp)
    simp [List.takeWhile_cons, ha, ih (fun x hx => hl x (by simp [hx]))]

/-- Looking up a key in a list from which every entry with that key has
been filtered out misses. -/
theorem lookup_filter_self {β : Type} (l : List (String × β)) (k : String) :
    (l.filter (fun e => !(e.1 == k))).lookup k = none := by
  induction l with
  | nil => rfl
  | cons e t ih =>
    obtain ⟨k1, v1⟩ := e
    by_cases h : k1 = k
    · simp [List.filter_cons, h, ih]
    · have hb : (k == k1) = false := by simp [Ne.symm h]
      simp [List.filter_cons, h, List.lookup, ih, hb]

/-! ## Claim C8 — blacklist short-circuit of the fallback engine -/

/-- C8: for all values of `static_score`, `hard_rule_hits`, `tls_ok`,
`upi_in_url` and `whois_age_days`, calling `fallback_risk` with
`in_blacklist = true` returns level `HIGH`, score exactly 100 and action
`BLOCK`. -/
theorem claim_C8_blacklist_dominates (ss : ℚ) (hr : ℤ) (tls upi : Bool)
    (wa : Option ℤ) :
    (fallback_risk ss hr tls upi wa true).level = "HIGH" ∧
    (fallback_risk ss hr tls upi wa true).score = 100 ∧
    (fallback_risk ss hr tls upi wa true).action = "BLOCK" := by
  simp [fallback_risk]

/-! ## Claim C10 — reputation store -/

/-- C10 counterexample: a first `get_reputation` lookup of an unknown
VPA returns the default record but does **not** create an entry in the
store (`dict.get` with a default never mutates), contradicting the
claim's "creates that entry in the store on first lookup". -/
theorem claim_C10_counterexample :
    (get_reputation [] "user@oksbi").1 = { reports := 0, trust := 1/2 } ∧
    ((get_reputation [] "user@oksbi").2).lookup "user@oksbi" = none := by
  exact ⟨rfl, rfl⟩

/-- C10 (amended): `get_reputation` of an unknown VPA returns
`{reports := 0, trust := 0.50}` while leaving the store untouched; the
entry is created by `update_reputation`, which stores, for the current
record (the stored one or the default), `reports + 1` and `trust × 0.75`
on a scam report, and `trust + 0.05` capped at `1.0` on a clean
observation. -/
theorem claim_C10_reputation (store : RepStore) (vpa : String) :
    (get_reputation store vpa).2 = store ∧
    (store.lookup (⟨listLower vpa.data⟩ : String) = none →
      (get_reputation store vpa).1 = { reports := 0, trust := 1/2 }) ∧
    (∀ cur, (get_reputation store vpa).1 = cur →
      (update_reputation store vpa true).lookup (⟨listLower vpa.data⟩ : String) =
        some { reports := cur.reports + 1, trust := cur.trust * (3/4) } ∧
      (update_reputation store vpa false).lookup (⟨listLower vpa.data⟩ : String) =
        some { reports := cur.reports, trust := min 1 (cur.trust + 1/20) }) := by
  refine ⟨rfl, ?_, ?_⟩
  · intro h
    simp [get_reputation, h]
  · intro cur hcur
    simp only [get_reputation] at hcur
    constructor <;>
      · simp only [update_reputation, if_true, if_false, Bool.false_eq_true,
          ite_false, ite_true]
        rw [hcur]
        simp [repSet, List.lookup]

/-- Witness for C10: on the store `{a@ybl ↦ (2 reports, trust 0.8)}`, an
unknown VPA reads the default record, and a scam report against `A@ybl`
(case-folded) stores 3 reports and trust 0.6. -/
theorem claim_C10_reputation_witness :
    (get_reputation [("a@ybl", { reports := 2, trust := 4/5 })] "user@oksbi").1 =
      { reports := 0, trust := 1/2 } ∧
    (update_reputation [("a@ybl", { reports := 2, trust := 4/5 })] "A@ybl" true).lookup
        (⟨listLower "A@ybl".data⟩ : String) =
      some { reports := 2 + 1, trust := (4/5 : ℚ) * (3/4) } :=
  ⟨(claim_C10_reputation _ "user@oksbi").2.1 (by rfl),
   ((claim_C10_reputation _ "A@ybl").2.2 { reports := 2, trust := 4/5 } (by rfl)).1⟩

/-! ## Claim C3 — trusted-domain whitelist of `validate_url` -/

/-- C3 counterexample: the host of `http://abcwww.google.com/` is, after
lower-casing and stripping a *leading* `www.` (which leaves it
unchanged), the dot-suffix subdomain `abcwww.google.com` of the trusted
entry `google.com`, so the claim demands verdict `OK` with score 0.0 —
but `is_trusted_domain` deletes **every** `www.` occurrence
(`str.replace`), producing the untrusted `abcgoogle.com`, and
`validate_url` (here with model artifacts unavailable) returns `WARN`
with score 0.5. -/
theorem claim_C3_counterexample :
    claimC3TrustedHost "http://abcwww.google.com/" = true ∧
    validate_url "http://abcwww.google.com/" none =
      { verdict := "WARN", score := 1/2 } ∧
    validate_url "http://abcwww.google.com/" none ≠
      { verdict := "OK", score := 0 } := by
  have h1 : is_trusted_domain "http://abcwww.google.com/" = false := by decide
  have h2 : check_domain_blacklist "http://abcwww.google.com/" = false := by decide
  have h3 : validate_url "http://abcwww.google.com/" none =
      { verdict := "WARN", score := 1/2 } := by
    simp [validate_url, h1, h2]
  refine ⟨by decide, h3, ?_⟩
  intro hc
  have := congrArg VUrlRes.verdict (h3.symm.trans hc)
  exact absurd this (by decide)

/-- C3 (amended): for every URL whose host — after lower-casing and
deleting every occurrence of `www.` — exactly matches or is a dot-suffix
subdomain of a trusted-list entry, `validate_url` returns verdict `OK`
with score exactly 0.0, regardless of model availability. -/
theorem claim_C3_trusted_ok (url : String) (ml : Option MLOut)
    (h : is_trusted_domain url = true) :
    validate_url url ml = { verdict := "OK", score := 0 } := by
  simp [validate_url, h]

/-- Witness for C3: `https://www.google.com/search` is trusted and gets
`OK`/0.0 even when the model oracle would report maximal fraud
probability. -/
theorem claim_C3_trusted_ok_witness :
    validate_url "https://www.google.com/search" (some { xgb_prob := 1, if_score := 1 }) =
      { verdict := "OK", score := 0 } :=
  claim_C3_trusted_ok _ _ (by decide)

/-! ## Claim C4 — phishing-pattern blacklist of `validate_url` -/

/-- C4 counterexample: the host `login-verify.google.com` matches the
phishing pattern `.*-verify.*\.com$`, so the claim demands `BLOCK` with
score 1.0 — but the trusted-domain whitelist is checked *first* and the
host is a subdomain of trusted `google.com`, so `validate_url` returns
`OK` with score 0.0. -/
theorem claim_C4_counterexample :
    matchesPhishing (listLower (urlNetloc "http://login-verify.google.com/".data)) = true ∧
    validate_url "http://login-verify.google.com/" none =
      { verdict := "OK", score := 0 } ∧
    validate_url "http://login-verify.google.com/" none ≠
      { verdict := "BLOCK", score := 1 } := by
  have h1 : is_trusted_domain "http://login-verify.google.com/" = true := by decide
  have h3 : validate_url "http://login-verify.google.com/" none =
      { verdict := "OK", score := 0 } := by
    simp [validate_url, h1]
  refine ⟨by decide, h3, ?_⟩
  intro hc
  have := congrArg VUrlRes.verdict (h3.symm.trans hc)
  exact absurd this (by decide)

/-- C4 (amended): for every URL whose (lower-cased) host matches at
least one of the 17 phishing regex patterns *and* which is not caught by
the trusted-domain whitelist checked first, `validate_url` returns
verdict `BLOCK` with score exactly 1.0, regardless of model
availability. -/
theorem claim_C4_phishing_blocks (url : String) (ml : Option MLOut)
    (hp : matchesPhishing (listLower (urlNetloc url.data)) = true)
    (ht : is_trusted_domain url = false) :
    validate_url url ml = { verdict := "BLOCK", score := 1 } := by
  simp [validate_url, ht, check_domain_blacklist, hp]

/-- Witness for C4: the spec's own example `https://login-verify.com/secure`
matches `.*-verify.*\.com$`, is untrusted, and is blocked with score 1.0
independently of the model oracle. -/
theorem claim_C4_phishing_blocks_witness :
    validate_url "https://login-verify.com/secure" (some { xgb_prob := 0, if_score := 0 }) =
      { verdict := "BLOCK", score := 1 } :=
  claim_C4_phishing_blocks _ _ (by decide) (by decide)

/-! ## Claim C6 — QR url-branch risk score -/

/-- C6 counterexample: a reachable link result whose Stage 2 sub-result
is present with score 0.0 (the Stage 2 validator's trusted-domain
override emits exactly `success = true, OK, 0.0`): the claim demands
`risk_score = 0.0`, but the Python `or` treats `0.0` as falsy and the QR
branch reports the Stage 1 score 0.5 instead. -/
theorem claim_C6_counterexample :
    (validate_link { verdict := "WARN", score := 1/2 }
        (some { success := true, verdict := "OK", score := 0 })).stage2 =
      some { success := true, verdict := "OK", score := 0 } ∧
    (validate_qr_url (validate_link { verdict := "WARN", score := 1/2 }
        (some { success := true, verdict := "OK", score := 0 }))).risk_score = 1/2 ∧
    ((1 : ℚ)/2 ≠ 0) := by
  refine ⟨by rfl, ?_, by norm_num⟩
  show (if (0 : ℚ) != 0 then (0 : ℚ) else 1/2) = 1/2
  simp

/-- C6 (amended): the QR path's `url` branch reports the Stage 2
sub-result's score whenever a Stage 2 sub-result is present **with a
nonzero score**; when Stage 2 is absent, or its score is `0.0` (falsy
for the Python `or` used to combine the two), it reports the Stage 1
score. -/
theorem claim_C6_qr_url_score (l : LinkRes) :
    (∀ r, l.stage2 = some r → r.score ≠ 0 →
      (validate_qr_url l).risk_score = r.score) ∧
    (∀ r, l.stage2 = some r → r.score = 0 →
      (validate_qr_url l).risk_score = l.stage1.score) ∧
    (l.stage2 = none → (validate_qr_url l).risk_score = l.stage1.score) := by
  refine ⟨?_, ?_, ?_⟩
  · intro r h h2
    simp [validate_qr_url, h, bne_iff_ne, h2]
  · intro r h h2
    simp [validate_qr_url, h, h2]
  · intro h
    simp [validate_qr_url, h]

/-- Witness for C6: a link result with a successful nonzero-score
Stage 2 sub-result reports that Stage 2 score. -/
theorem claim_C6_qr_url_score_witness :
    (validate_qr_url (validate_link { verdict := "WARN", score := 1/2 }
        (some { success := true, verdict := "BLOCK", score := 9/10 }))).risk_score = 9/10 :=
  (claim_C6_qr_url_score _).1 { success := true, verdict := "BLOCK", score := 9/10 }
    (by rfl) (by norm_num)

/-! ## Claim C1 — two-stage aggregation of the link path -/

/-- C1: on the orchestrator's link path, when Stage 2 ran (Stage 1 said
`WARN` or `BLOCK` and the Stage 2 call returned a result) and that
result reports success, the risk score is `max(stage1, stage2)` and the
final verdict is `BLOCK` if either stage blocks, else `WARN` if either
warns, else `OK`; in every other situation the final verdict and score
are Stage 1's. -/
theorem claim_C1_link_aggregation (s1 : VUrlRes) (s2run : Option Stage2Res) :
    (∀ r, s2run = some r → r.success = true →
      s1.verdict = "WARN" ∨ s1.verdict = "BLOCK" →
      (validate_link s1 s2run).risk_score = max s1.score r.score ∧
      (validate_link s1 s2run).final_verdict =
        (if s1.verdict = "BLOCK" ∨ r.verdict = "BLOCK" then "BLOCK"
         else if s1.verdict = "WARN" ∨ r.verdict = "WARN" then "WARN"
         else "OK")) ∧
    ((∀ r, s2run = some r → s1.verdict = "WARN" ∨ s1.verdict = "BLOCK" →
        r.success = false) →
      (validate_link s1 s2run).final_verdict = s1.verdict ∧
      (validate_link s1 s2run).risk_score = s1.score) := by
  constructor
  · rintro r rfl hs hv
    have hcond : (s1.verdict == "WARN" || s1.verdict == "BLOCK") = true := by
      rcases hv with h | h <;> simp [h]
    simp only [validate_link, hcond, if_true, hs]
    constructor
    · simp
    · simp only [Bool.or_eq_true, beq_iff_eq]
  · intro hns
    cases s2run with
    | none => simp [validate_link]
    | some r =>
      by_cases hv : s1.verdict = "WARN" ∨ s1.verdict = "BLOCK"
      · have hs : r.success = false := hns r rfl hv
        have hcond : (s1.verdict == "WARN" || s1.verdict == "BLOCK") = true := by
          rcases hv with h | h <;> simp [h]
        simp [validate_link, hcond, hs]
      · push_neg at hv
        have hcond : (s1.verdict == "WARN" || s1.verdict == "BLOCK") = false := by
          simp [hv.1, hv.2]
        simp [validate_link, hcond]

/-- Witness for C1: a successful blocking Stage 2 after a Stage 1 `WARN`
yields `BLOCK` with the larger score; a Stage 1 `OK` never runs Stage 2,
so the final result is Stage 1's. -/
theorem claim_C1_link_aggregation_witness :
    (validate_link { verdict := "WARN", score := 3/5 }
      (some { success := true, verdict := "BLOCK", score := 9/10 })).risk_score =
        max (3/5 : ℚ) (9/10) ∧
    (validate_link { verdict := "WARN", score := 3/5 }
      (some { success := true, verdict := "BLOCK", score := 9/10 })).final_verdict = "BLOCK" ∧
    (validate_link { verdict := "OK", score := 1/10 }
      (some { success := true, verdict := "BLOCK", score := 9/10 })).final_verdict = "OK" ∧
    (validate_link { verdict := "OK", score := 1/10 }
      (some { success := true, verdict := "BLOCK", score := 9/10 })).risk_score = 1/10 := by
  have h1 := (claim_C1_link_aggregation { verdict := "WARN", score := 3/5 }
    (some { success := true, verdict := "BLOCK", score := 9/10 })).1
    { success := true, verdict := "BLOCK", score := 9/10 } rfl rfl (Or.inl rfl)
  have h2 := (claim_C1_link_aggregation { verdict := "OK", score := 1/10 }
    (some { success := true, verdict := "BLOCK", score := 9/10 })).2
    (by rintro r hr hv; rcases hv with h | h <;> exact absurd h (by decide))
  refine ⟨h1.1, ?_, h2.1, h2.2⟩
  rw [h1.2]
  simp

/-! ## Claim C2 — error conversion and cache policy of `validate_input` -/

/-- Restamping the `cached` and `response_time_ms` keys neither adds nor
removes an `error` key. -/
theorem hasKey_map_set (r : ResDict) (k k' : String) (v : RVal) (h : k ≠ k') :
    hasKey (r.map (fun e => if e.1 == k then (k, v) else e)) k' = hasKey r k' := by
  have h1 : (k == k') = false := by simp [h]
  unfold hasKey
  induction r with
  | nil => rfl
  | cons e t ih =>
    simp only [List.map_cons, List.any_cons, ih]
    by_cases he : e.1 = k
    · have h2 : (e.1 == k') = false := by rw [he]; exact h1
      simp [he, h1, h2]
    · simp [he]

/-- `setKey` on a key different from `k'` preserves `hasKey · k'`. -/
theorem hasKey_setKey (r : ResDict) (k k' : String) (v : RVal) (h : k ≠ k') :
    hasKey (setKey r k v) k' = hasKey r k' := by
  unfold setKey
  by_cases hin : r.any (fun e => e.1 == k)
  · simp only [hin, if_true]
    exact hasKey_map_set r k k' v h
  · simp only [hin, Bool.false_eq_true, ite_false]
    have h1 : (k == k') = false := by simp [h]
    simp [hasKey, List.any_append, h1]

/-- The `cached`/`response_time_ms` stamps leave the `error` key alone. -/
theorem hasKey_stamp (r : ResDict) (n : ℤ) :
    hasKey (setKey (setKey r "cached" (RVal.bool false)) "response_time_ms"
      (RVal.int n)) "error" = hasKey r "error" := by
  rw [hasKey_setKey _ _ _ _ (by decide), hasKey_setKey _ _ _ _ (by decide)]

/-- After a cache miss, the (possibly eviction-updated) cache has no
entry under the key. -/
theorem get_from_cache_miss_lookup (cache : Cache) (now : ℚ) (key : String)
    (h : (get_from_cache cache now key).1 = none) :
    ((get_from_cache cache now key).2).lookup key = none := by
  unfold get_from_cache at h ⊢
  cases hc : cache.lookup key with
  | none => simp [hc]
  | some rt =>
    obtain ⟨r, ts⟩ := rt
    by_cases hfresh : now - ts < 24
    · rw [hc] at h
      simp [hfresh] at h
    · simp [hc, hfresh, lookup_filter_self]

/-- C2: on a cache miss, an exception `e` escaping the dispatched path
handler makes `validate_input` return exactly the one-key dictionary
`{error: e}` (no partial result, cache unchanged beyond lazy eviction);
and a handler result is stored in the cache under the request key if and
only if it carries no `error` key. -/
theorem claim_C2_error_and_cache (cache : Cache) (now : ℚ) (key : String)
    (dispatch : Except String ResDict) (elapsed : ℤ)
    (hmiss : (get_from_cache cache now key).1 = none) :
    (∀ e, dispatch = .error e →
      validate_input cache now key dispatch elapsed =
        ([("error", RVal.str e)], (get_from_cache cache now key).2)) ∧
    (∀ r0, dispatch = .ok r0 →
      ((validate_input cache now key dispatch elapsed).2.lookup key =
          some (setKey (setKey r0 "cached" (RVal.bool false)) "response_time_ms"
            (RVal.int elapsed), now) ↔
        hasKey r0 "error" = false)) := by
  constructor
  · rintro e rfl
    simp [validate_input, hmiss]
  · rintro r0 rfl
    have hkey := hasKey_stamp r0 elapsed
    by_cases he : hasKey r0 "error" = true
    · have hout : (validate_input cache now key (.ok r0) elapsed).2 =
          (get_from_cache cache now key).2 := by
        simp [validate_input, hmiss, hkey, he]
      rw [hout, get_from_cache_miss_lookup cache now key hmiss]
      simp [he]
    · have he' : hasKey r0 "error" = false := by
        simpa using he
      have hout : (validate_input cache now key (.ok r0) elapsed).2 =
          save_to_cache (get_from_cache cache now key).2 key
            (setKey (setKey r0 "cached" (RVal.bool false)) "response_time_ms"
              (RVal.int elapsed)) now := by
        simp [validate_input, hmiss, hkey, he']
      rw [hout]
      simp [save_to_cache, List.lookup, he']

/-- Witness for C2: on the empty cache, an exception becomes exactly
`{error: "boom"}`; an error-free handler result lands in the cache under
the request key, stamped. -/
theorem claim_C2_error_and_cache_witness :
    validate_input [] 0 "k" (Except.error "boom") 5 =
      ([("error", RVal.str "boom")], (get_from_cache [] 0 "k").2) ∧
    (validate_input [] 0 "k" (Except.ok [("verdict", RVal.str "OK")]) 5).2.lookup "k" =
      some (setKey (setKey [("verdict", RVal.str "OK")] "cached" (RVal.bool false))
        "response_time_ms" (RVal.int 5), 0) :=
  ⟨(claim_C2_error_and_cache [] 0 "k" _ 5 rfl).1 "boom" rfl,
   ((claim_C2_error_and_cache [] 0 "k" _ 5 rfl).2 _ rfl).mpr rfl⟩

/-! ## Claim C5 — a blocked URL forces at least WARN on a message -/

/-- Every per-URL contribution is nonnegative. -/
theorem urlContribution_nonneg (v : String) : 0 ≤ urlContribution v := by
  unfold urlContribution
  split <;> norm_num
  split <;> norm_num

/-- C5: whenever at least one URL extracted from a message is verdicted
`BLOCK` by the link path, the message verdict is `WARN` or `BLOCK`,
never `OK` — the +0.5 contribution of one blocked URL alone meets the
0.3 WARN threshold, and every other contribution is nonnegative. -/
theorem claim_C5_blocked_url_warns (message : String) (lv : String → String)
    (h : ∃ p ∈ (validate_message message lv).extracted_urls, p.2 = "BLOCK") :
    (validate_message message lv).verdict = "WARN" ∨
    (validate_message message lv).verdict = "BLOCK" := by
  obtain ⟨p, hp, hpb⟩ := h
  simp only [validate_message] at hp
  obtain ⟨u, hu, rfl⟩ := List.mem_map.mp hp
  have hlv : lv u = "BLOCK" := hpb
  simp only [validate_message]
  set urls : List String :=
    (extractUrls message.data).map (fun u => (⟨listRStrip URL_STRIP_CHARS u⟩ : String))
    with hurls
  set kwRisk : ℚ :=
    (if (SUSPICIOUS_KEYWORDS.filter
          (fun kw => listHasSub kw.data (listLower message.data))).isEmpty
     then 0
     else (15/100) *
       ((SUSPICIOUS_KEYWORDS.filter
          (fun kw => listHasSub kw.data (listLower message.data))).length : ℚ))
    with hkw
  set urlRisk : ℚ := (urls.map (fun u => urlContribution (lv u))).sum with hur
  set phoneRisk : ℚ := (if hasPhone message.data then 1/10 else 0) with hph
  have hkw0 : 0 ≤ kwRisk := by
    rw [hkw]
    split
    · norm_num
    · positivity
  have hph0 : 0 ≤ phoneRisk := by
    rw [hph]
    split <;> norm_num
  have hhalf : (1/2 : ℚ) ≤ urlRisk := by
    have hmem : urlContribution (lv u) ∈ urls.map (fun u => urlContribution (lv u)) :=
      List.mem_map_of_mem _ hu
    have hle := List.single_le_sum
      (l := urls.map (fun u => urlContribution (lv u)))
      (fun x hx => by
        obtain ⟨w, _, rfl⟩ := List.mem_map.mp hx
        exact urlContribution_nonneg _) _ hmem
    rw [hur]
    calc (1/2 : ℚ) = urlContribution (lv u) := by simp [urlContribution, hlv]
    _ ≤ _ := hle
  have hrisk : (3/10 : ℚ) ≤ kwRisk + urlRisk + phoneRisk := by linarith
  by_cases h7 : kwRisk + urlRisk + phoneRisk ≥ 7/10
  · right
    simp [h7]
  · left
    simp [h7, hrisk]

/-- Witness for C5: a message with one URL which the link oracle blocks
is verdicted `WARN` or `BLOCK`. -/
theorem claim_C5_blocked_url_warns_witness :
    (validate_message "visit http://evil-site.com/x now" (fun _ => "BLOCK")).verdict = "WARN" ∨
    (validate_message "visit http://evil-site.com/x now" (fun _ => "BLOCK")).verdict = "BLOCK" :=
  claim_C5_blocked_url_warns _ _
    ⟨("http://evil-site.com/x", "BLOCK"), by decide, rfl⟩

/-! ## Claim C7 — the QR package's VPA format validator -/

/-- A character of the VPA class is not `'@'` (as a `bne` fact). -/
theorem vpaChar_ne_at {x : Char} (hx : isVpaChar x = true) : (x != '@') = true := by
  by_cases hxa : x = '@'
  · subst hxa
    exact absurd hx (by decide)
  · simp [bne_iff_ne, hxa]

/-- A decomposition `local ++ '@' ++ provider` with both parts in the
class and in bounds matches the VPA regex. -/
theorem vpaRegex_decomp (loc prov : List Char)
    (hlocall : loc.all isVpaChar = true) (hloc2 : 2 ≤ loc.length)
    (hloc256 : loc.length ≤ 256)
    (hprovall : prov.all isVpaChar = true) (hprov2 : 2 ≤ prov.length)
    (hprov128 : prov.length ≤ 128) :
    vpaRegex (loc ++ '@' :: prov) = true := by
  have htake : (loc ++ '@' :: prov).takeWhile (fun c => c != '@') = loc :=
    takeWhile_append_all loc '@' prov
      (fun x hx => vpaChar_ne_at (List.all_eq_true.mp hlocall x hx)) (by decide)
  unfold vpaRegex
  rw [htake]
  simp only [List.drop_left]
  simp [hlocall, hprovall, hloc2, hloc256, hprov2, hprov128]

/-- On such a decomposition, `split('@')[-1]` is the provider part. -/
theorem afterLastAt_decomp (loc prov : List Char)
    (hprovall : prov.all isVpaChar = true) :
    afterLastAt (loc ++ '@' :: prov) = prov := by
  have hl : ∀ x ∈ prov.reverse, (x != '@') = true := by
    intro x hx
    exact vpaChar_ne_at (List.all_eq_true.mp hprovall x (List.mem_reverse.mp hx))
  unfold afterLastAt
  rw [List.reverse_append, List.reverse_cons, List.append_assoc,
    List.singleton_append,
    takeWhile_append_all prov.reverse '@' loc.reverse hl (by decide),
    List.reverse_reverse]

/-- C7: `validate_vpa_format` blocks (risk 0.9) every string failing the
`localpart@provider` regex; for a well-formed VPA (stated as an explicit
decomposition into a 2–256 character local part, `'@'` and a 2–128
character provider, both over `[a-zA-Z0-9.\-_]`) it returns `OK` with
risk 0.1 and the resolved institution name when the lower-cased provider
is in `KNOWN_PROVIDERS`, and `WARN` with risk 0.5 when it is not. -/
theorem claim_C7_vpa_format (vpa : String) :
    (vpaRegex vpa.data = false →
      validate_vpa_format vpa =
        { verdict := "BLOCK", risk_score := 9/10,
          reasons := ["❌ Invalid VPA format"], provider := none }) ∧
    (∀ loc prov, vpa.data = loc ++ '@' :: prov →
      loc.all isVpaChar = true → 2 ≤ loc.length → loc.length ≤ 256 →
      prov.all isVpaChar = true → 2 ≤ prov.length → prov.length ≤ 128 →
      (∀ name, KNOWN_PROVIDERS.lookup (⟨listLower prov⟩ : String) = some name →
        validate_vpa_format vpa =
          { verdict := "OK", risk_score := 1/10,
            reasons := ["✓ Valid VPA format", "✓ Verified provider: " ++ name],
            provider := some name }) ∧
      (KNOWN_PROVIDERS.lookup (⟨listLower prov⟩ : String) = none →
        validate_vpa_format vpa =
          { verdict := "WARN", risk_score := 1/2,
            reasons := ["✓ Valid VPA format",
                        "⚠️ Unrecognized payment provider: " ++
                          (⟨listLower prov⟩ : String),
                        "This might be a new or regional provider",
                        "⚠️ Verify merchant authenticity before paying"],
            provider := some (⟨listLower prov⟩ : String) })) := by
  constructor
  · intro h
    simp [validate_vpa_format, h]
  · intro loc prov hdec h1 h2 h3 h4 h5 h6
    have hreg : vpaRegex vpa.data = true := by
      rw [hdec]
      exact vpaRegex_decomp loc prov h1 h2 h3 h4 h5 h6
    have haft : afterLastAt vpa.data = prov := by
      rw [hdec]
      exact afterLastAt_decomp loc prov h4
    constructor
    · intro name hname
      simp [validate_vpa_format, hreg, haft, hname]
    · intro hno
      simp [validate_vpa_format, hreg, haft, hno]

/-- Witness for C7, at the spec's three examples: `user@oksbi` resolves
to State Bank of India with `OK`/0.1, `bad_format` (no `@`) is
`BLOCK`/0.9, and `user@unknownprovider123` is `WARN`/0.5. -/
theorem claim_C7_vpa_format_witness :
    validate_vpa_format "user@oksbi" =
      { verdict := "OK", risk_score := 1/10,
        reasons := ["✓ Valid VPA format",
                    "✓ Verified provider: " ++ "State Bank of India"],
        provider := some "State Bank of India" } ∧
    validate_vpa_format "bad_format" =
      { verdict := "BLOCK", risk_score := 9/10,
        reasons := ["❌ Invalid VPA format"], provider := none } ∧
    validate_vpa_format "user@unknownprovider123" =
      { verdict := "WARN", risk_score := 1/2,
        reasons := ["✓ Valid VPA format",
                    "⚠️ Unrecognized payment provider: " ++
                      (⟨listLower "unknownprovider123".data⟩ : String),
                    "This might be a new or regional provider",
                    "⚠️ Verify merchant authenticity before paying"],
        provider := some (⟨listLower "unknownprovider123".data⟩ : String) } := by
  refine ⟨?_, ?_, ?_⟩
  · exact ((claim_C7_vpa_format "user@oksbi").2 "user".data "oksbi".data rfl
      (by decide) (by decide) (by decide) (by decide) (by decide) (by decide)).1
      "State Bank of India" (by decide)
  · exact (claim_C7_vpa_format "bad_format").1 (by decide)
  · exact ((claim_C7_vpa_format "user@unknownprovider123").2 "user".data
      "unknownprovider123".data rfl
      (by decide) (by decide) (by decide) (by decide) (by decide) (by decide)).2
      (by decide)

/-! ## Claim C9 — the VPA rule engine -/

set_option maxRecDepth 40000

/-- C9 counterexample, at the VPA `wwxxyyzz1122@okhdfcbank` with no
amount: the claim's soft-flag conditions are all false — the *local
part* `wwxxyyzz1122` has Shannon entropy `log2 6 ≈ 2.58 ≤ 3.7` bits, no
amount is given, and the local part has 12 > 3 characters — yet
`apply_vpa_rules` reports a soft flag, because the source computes
`entropy(vpa)` over the **entire** VPA string, whose entropy
`≈ 3.91 > 3.7` bits. -/
theorem claim_C9_counterexample :
    entropyGt (beforeAt (listLower "wwxxyyzz1122@okhdfcbank".data)) 37 10 = false ∧
    amountSuspicious none = false ∧
    ¬((beforeAt (listLower "wwxxyyzz1122@okhdfcbank".data)).length ≤ 3) ∧
    (apply_vpa_rules "wwxxyyzz1122@okhdfcbank" none).soft_flags =
      [SoftFlag.highEntropy] := by
  refine ⟨by decide, rfl, by decide, by decide⟩

/-- C9 (amended): `apply_vpa_rules` reports a hard failure exactly when
the (lower-cased) VPA fails the format regex or its provider is outside
the 11-provider allowlist, and reports soft flags exactly when the
Shannon entropy of the **entire lower-cased VPA string** exceeds 3.7
bits, the amount is one of {1, 2, 5, 10}, or the local part
(`split('@')[0]`) has at most 3 characters. -/
theorem claim_C9_vpa_rules (vpa : String) (amount : Option ℚ) :
    ((apply_vpa_rules vpa amount).hard_fail ≠ [] ↔
      (is_valid_format (listLower vpa.data) = false ∨
       providerAllowed (get_provider (listLower vpa.data)) = false)) ∧
    ((apply_vpa_rules vpa amount).soft_flags ≠ [] ↔
      (entropyGt (listLower vpa.data) 37 10 = true ∨
       amountSuspicious amount = true ∨
       (beforeAt (listLower vpa.data)).length ≤ 3)) := by
  constructor
  · by_cases h1 : is_valid_format (listLower vpa.data) = true <;>
    by_cases h2 : providerAllowed (get_provider (listLower vpa.data)) = true <;>
      simp [apply_vpa_rules, h1, h2]
  · by_cases h3 : entropyGt (listLower vpa.data) 37 10 = true <;>
    by_cases h4 : amountSuspicious amount = true <;>
    by_cases h5 : (beforeAt (listLower vpa.data)).length ≤ 3 <;>
      simp [apply_vpa_rules, h3, h4, h5]

end UpiFraud
